import Mathlib

set_option autoImplicit false

namespace EduRAG

/-! Shallow embedding of the RAG subsystem of the eduverse-dashboard backend:
the chunking service, the embedding service, the vector store operations, the
content indexer and the RAG query service, together with the data model they
share. External network capabilities (the embedding provider, the vector
backend, the generative model) are passed in as explicit oracle parameters, as
the spec treats them as opaque capability contracts. -/

/-- A metadata value: Python dict values used by the pipeline are strings,
integers or (similarity) numbers. Numbers are modelled as rationals. -/
inductive MV where
  | str (s : String)
  | nat (n : Nat)
  | rat (q : ℚ)
deriving DecidableEq

/-- A Python dict with string keys, as an association list in insertion
order. Keys are unique in any dict built by the embedded code. -/
abbrev Dict := List (String × MV)

/-- Python dict item assignment: replace the value in place when the key is
present, append the pair otherwise. -/
def dinsert (k : String) (v : MV) : Dict → Dict
  | [] => [(k, v)]
  | (k₀, v₀) :: rest => if k₀ = k then (k, v) :: rest else (k₀, v₀) :: dinsert k v rest

/-- Python dict .get with a string default, rendering non-string stored
values with toString (app code only ever stores strings under the keys it
reads this way). -/
def mvText : MV → String
  | .str s => s
  | .nat n => toString n
  | .rat q => toString q

def dictGetStr (d : Dict) (k : String) (dft : String) : String :=
  match List.lookup k d with
  | some v => mvText v
  | none => dft

/-- Python dict .get with an MV default. -/
def dictGetD (d : Dict) (k : String) (dft : MV) : MV :=
  (List.lookup k d).getD dft

/-- app/utils/exceptions.py APIException: code, message and retryable flag
(status codes are HTTP concerns outside the core). -/
structure ApiErr where
  code : String
  message : String
  retryable : Bool
deriving DecidableEq

/-- exceptions.py ChunkingError. -/
def ChunkingError (message : String) : ApiErr :=
  { code := "CHUNKING_ERROR", message := message, retryable := false }

/-- exceptions.py EmbeddingGenerationError. -/
def EmbeddingGenerationError (message : String) : ApiErr :=
  { code := "EMBEDDING_GENERATION_ERROR", message := message, retryable := true }

/-- exceptions.py VectorDBError. -/
def VectorDBError (message : String) : ApiErr :=
  { code := "VECTOR_DB_ERROR", message := message, retryable := true }

/-- exceptions.py RAGPipelineError. -/
def RAGPipelineError (message : String) : ApiErr :=
  { code := "RAG_PIPELINE_ERROR", message := message, retryable := true }

/-- models/base.py Subject enumeration. -/
inductive Subject where
  | mathematics | physics | chemistry | biology
deriving DecidableEq

def Subject.value : Subject → String
  | .mathematics => "mathematics"
  | .physics => "physics"
  | .chemistry => "chemistry"
  | .biology => "biology"

/-- models/content.py ContentType enumeration. -/
inductive ContentType where
  | ncert | pyq | hots | video
deriving DecidableEq

def ContentType.value : ContentType → String
  | .ncert => "ncert"
  | .pyq => "pyq"
  | .hots => "hots"
  | .video => "video"

/-- models/content.py DifficultyLevel enumeration. -/
inductive DifficultyLevel where
  | easy | medium | hard
deriving DecidableEq

def DifficultyLevel.value : DifficultyLevel → String
  | .easy => "easy"
  | .medium => "medium"
  | .hard => "hard"

/-- models/content.py ContentItem, restricted to the fields the indexing
pipeline reads (timestamps, title and embedding_id are never consulted by the
chunker or indexer). -/
structure ContentItem where
  id : String
  type : ContentType
  subject : Subject
  chapter : Option String := none
  topic_id : Option String := none
  difficulty : Option DifficultyLevel := none
  content_text : String
  metadata : List (String × MV) := []
deriving DecidableEq

/-- models/rag.py RAGQuery. -/
structure RAGQuery where
  query : String
  subject : Option Subject := none
  top_k : Nat := 5
  confidence_threshold : ℚ := 7 / 10
  filters : Dict := []

/-- models/rag.py SimilaritySearchResult, as produced by
vector_db_service.query_similar. -/
structure SimilaritySearchResult where
  content_id : String
  chunk_id : String
  similarity_score : ℚ
  text : String
  metadata : Dict := []
deriving DecidableEq

/-- models/rag.py RAGContext. -/
structure RAGContext where
  chunk_id : String
  content_id : String
  text : String
  similarity_score : ℚ
  metadata : Dict := []
  source_type : String
  subject : Option Subject := none
deriving DecidableEq

/-- models/rag.py RAGResponse; sources are the per-result citation dicts. -/
structure RAGResponse where
  query : String
  generated_text : String
  contexts : List RAGContext
  confidence : ℚ
  sources : List Dict
  metadata : Dict
deriving DecidableEq

/-- rag_service.py RAGService.prompt_template rendered with a context block
and the query text. -/
def promptTemplate (context query : String) : String :=
  "You are an expert tutor for Class 12 students in India. Use the following context from NCERT textbooks and educational materials to answer the student question.\n\nContext:\n"
    ++ context
    ++ "\n\nStudent Question: "
    ++ query
    ++ "\n\nInstructions:\n1. Provide a clear, accurate answer based on the context provided\n2. Use simple language appropriate for Class 12 students\n3. Include relevant examples or explanations\n4. If the context lacks enough information, acknowledge this\n5. Cite the sources used in your answer\n\nAnswer:"

/-- Rendering of the confidence number inside the low-confidence message
(the Python percent formatting is abstracted to an exact decimal rendering;
no claim constrains this text). -/
def confidencePercent (x : ℚ) : String :=
  toString (x * 100) ++ "%"

/-- rag_service.py RAGService.query, steps 4 to 8: the branching on the
retrieval outcome. Steps 1 to 3 are the external embedding and retrieval
calls, so the function takes the retrieved result list as input; the
generative capability is the oracle gen. The second component counts how
many times the generative capability was invoked during the call. -/
def rag_query (q : RAGQuery) (search_results : List SimilaritySearchResult)
    (gen : String → String) : RAGResponse × Nat :=
  if search_results.isEmpty then
    ({ query := q.query
       generated_text := "I couldn't find relevant information in the available content. Please try rephrasing your question or ask about a different topic."
       contexts := []
       confidence := 0
       sources := []
       metadata := [("reason", .str "no_results")] }, 0)
  else
    let avg_confidence : ℚ :=
      (search_results.map (fun r => r.similarity_score)).sum / (search_results.length : ℚ)
    if avg_confidence < q.confidence_threshold then
      ({ query := q.query
         generated_text := "I found some related content, but I'm not confident enough (confidence: "
           ++ confidencePercent avg_confidence
           ++ ") to provide an accurate answer. Could you please rephrase your question or provide more context?"
         contexts := []
         confidence := avg_confidence
         sources := []
         metadata := [("reason", .str "low_confidence"), ("threshold", .rat q.confidence_threshold)] }, 0)
    else
      let contexts := search_results.map (fun r =>
        { chunk_id := r.chunk_id
          content_id := r.content_id
          text := r.text
          similarity_score := r.similarity_score
          metadata := r.metadata
          source_type := dictGetStr r.metadata "type" "unknown"
          subject := q.subject : RAGContext })
      let context_text_parts := search_results.enum.map (fun p =>
        "[Source " ++ toString (p.1 + 1) ++ "] (" ++ dictGetStr p.2.metadata "type" "content"
          ++ " - " ++ dictGetStr p.2.metadata "chapter" "N/A" ++ ")\n" ++ p.2.text)
      let sources := search_results.map (fun r =>
        ([("id", .str r.content_id),
          ("type", .str (dictGetStr r.metadata "type" "unknown")),
          ("subject", .str (dictGetStr r.metadata "subject" "")),
          ("chapter", .str (dictGetStr r.metadata "chapter" "")),
          ("similarity", .rat r.similarity_score)] : Dict))
      let context_text := String.intercalate "\n\n" context_text_parts
      let prompt := promptTemplate context_text q.query
      let answer := gen prompt
      let generated_text :=
        if answer = "" then "I couldn't generate a response. Please try again." else answer
      ({ query := q.query
         generated_text := generated_text
         contexts := contexts
         confidence := avg_confidence
         sources := sources
         metadata := [("model", .str "gemini-1.5-pro"),
                      ("chunks_retrieved", .nat search_results.length)] }, 1)

/-! Chunker: services/chunking_service.py. The repository delegates the text
splitting itself to the RecursiveCharacterTextSplitter of the langchain
library; the split behaviour is therefore an oracle parameter, mapping the
chunk parameters and a text to the list of chunk texts. The only part of the
library the repository code observably depends on for its error behaviour is
the constructor validation, modelled below. -/

/-- The split_text behaviour of a RecursiveCharacterTextSplitter built with
given chunk_size and chunk_overlap (an external deterministic algorithm). -/
abbrev SplitOracle := Int → Int → String → List String

/-- Constructor validation of the langchain text splitter (library
dependency): it rejects a chunk_overlap larger than chunk_size with a
ValueError; this is the only exception the splitter construction raises. -/
def mkTextSplitter (chunk_size chunk_overlap : Int) : Except String Unit :=
  if chunk_overlap > chunk_size then
    .error ("Got a larger chunk overlap (" ++ toString chunk_overlap
      ++ ") than chunk size (" ++ toString chunk_size ++ "), should be smaller.")
  else .ok ()

/-- chunking_service.py ChunkingService.chunk_text: build a custom splitter
when the parameters differ from the defaults (1200, 200), otherwise use the
prebuilt default splitter; any exception is wrapped in a ChunkingError. -/
def chunk_text (split : SplitOracle) (text : String)
    (chunk_size chunk_overlap : Int) : Except ApiErr (List String) :=
  if chunk_size ≠ 1200 ∨ chunk_overlap ≠ 200 then
    match mkTextSplitter chunk_size chunk_overlap with
    | .error m => .error (ChunkingError ("Failed to chunk text: " ++ m))
    | .ok () => .ok (split chunk_size chunk_overlap text)
  else .ok (split 1200 200 text)

/-- A chunk prepared for indexing: chunking_service.py builds a dict with
keys id, text and metadata for each chunk. -/
structure ChunkData where
  id : String
  text : String
  metadata : Dict
deriving DecidableEq

/-- The metadata dict built for one chunk in
ChunkingService.chunk_content_item: the fixed keys in literal order, then
the update with the content item extension metadata under content_ prefixed
keys. -/
def chunkBaseMetadata (item : ContentItem) (chunk_id chunk_textv : String)
    (idx total : Nat) : Dict :=
  [("chunk_id", .str chunk_id),
   ("content_id", .str item.id),
   ("text", .str chunk_textv),
   ("chunk_index", .nat idx),
   ("total_chunks", .nat total),
   ("subject", .str item.subject.value),
   ("type", .str item.type.value),
   ("chapter", .str (item.chapter.getD "")),
   ("topic_id", .str (item.topic_id.getD "")),
   ("difficulty", .str (match item.difficulty with
                        | some d => d.value
                        | none => ""))]

def chunkMetadata (item : ContentItem) (chunk_id chunk_textv : String)
    (idx total : Nat) : Dict :=
  item.metadata.foldl (fun d kv => dinsert ("content_" ++ kv.1) kv.2 d)
    (chunkBaseMetadata item chunk_id chunk_textv idx total)

/-- chunking_service.py ChunkingService.chunk_content_item: chunk the body
and enumerate the chunks into ChunkData records; any exception is wrapped in
a ChunkingError. -/
def chunk_content_item (split : SplitOracle) (item : ContentItem)
    (chunk_size chunk_overlap : Int) : Except ApiErr (List ChunkData) :=
  match chunk_text split item.content_text chunk_size chunk_overlap with
  | .error e => .error (ChunkingError ("Failed to chunk content item: " ++ e.message))
  | .ok chunks =>
    .ok (chunks.enum.map (fun p =>
      { id := item.id ++ "_chunk_" ++ toString p.1
        text := p.2
        metadata := chunkMetadata item (item.id ++ "_chunk_" ++ toString p.1)
          p.2 p.1 chunks.length }))

/-- A concrete splitter used to instantiate oracle parameters in witnesses:
it returns the whole text as one chunk. -/
def wholeTextSplitter : SplitOracle := fun _ _ s => [s]

/-! Embedder: services/embedding_service.py. The provider call
model.get_embeddings is an oracle; the batching loop, the error wrapping and
the cosine similarity are embedded from the source. -/

/-- An embedding vector (floats modelled as rationals where arithmetic is
exact; cosine similarity below moves to the reals for the norms). -/
abbrev Embedding := List ℚ

/-- The consecutive groups of at most bs elements the Python loop
for i in range(0, len(texts), batch_size) slices out of the list, with fuel
bounding the recursion (fuel at least the list length is enough when bs is
positive). -/
def chunksOfAux {α : Type} (bs : Nat) : Nat → List α → List (List α)
  | 0, _ => []
  | _, [] => []
  | fuel + 1, x :: xs => (x :: xs).take bs :: chunksOfAux bs fuel ((x :: xs).drop bs)

def chunksOf {α : Type} (bs : Nat) (l : List α) : List (List α) :=
  chunksOfAux bs l.length l

/-- embedding_service.py EmbeddingService.generate_embeddings_batch: slice
the texts into consecutive groups of at most batch_size, submit the groups
sequentially to the provider oracle getEmb, concatenate the group results in
order; any provider failure fails the whole batch wrapped in an
EmbeddingGenerationError. A batch_size of zero makes the Python range raise,
which the same wrapping turns into an EmbeddingGenerationError. -/
def generate_embeddings_batch (getEmb : List String → Except ApiErr (List Embedding))
    (texts : List String) (batch_size : Nat) : Except ApiErr (List Embedding) :=
  if batch_size = 0 then
    .error (EmbeddingGenerationError
      "Failed to generate batch embeddings: range() arg 3 must not be zero")
  else
    match (chunksOf batch_size texts).mapM getEmb with
    | .error e => .error (EmbeddingGenerationError
        ("Failed to generate batch embeddings: " ++ e.message))
    | .ok groups => .ok groups.flatten

/-- Dot product of two vectors, zipWith as np.dot on equal-length arrays. -/
def dotList (a b : List ℚ) : ℚ :=
  (List.zipWith (fun x y => x * y) a b).sum

/-- The squared Euclidean norm of a vector. -/
def normSq (v : List ℚ) : ℚ :=
  (v.map (fun x => x * x)).sum

/-- np.linalg.norm: the Euclidean norm, a real number. -/
noncomputable def normL2 (v : List ℚ) : ℝ :=
  Real.sqrt ((normSq v : ℚ) : ℝ)

/-- embedding_service.py EmbeddingService.cosine_similarity: guard on a zero
norm of either argument, returning 0.0; otherwise the dot product divided by
the product of the norms. -/
noncomputable def cosine_similarity (a b : List ℚ) : ℝ :=
  letI : Decidable (normL2 a = 0 ∨ normL2 b = 0) := Classical.propDecidable _
  if normL2 a = 0 ∨ normL2 b = 0 then 0
  else ((dotList a b : ℚ) : ℝ) / (normL2 a * normL2 b)

/-! VectorIndex: services/vector_db_service.py against the Pinecone backend.
The store itself is the backend state: a sequence of (id, vector, metadata)
entries, unique by id. Upsert replaces by id; delete_by_filter removes every
entry whose metadata matches the exact-match key/value conjunction. -/

/-- The persisted unit inside the vector store. -/
structure IndexedVector where
  id : String
  vector : Embedding
  metadata : Dict
deriving DecidableEq

/-- The default-namespace content of the vector index. -/
abbrev Store := List IndexedVector

/-- Upsert of a single vector: overwrite the entry with the same id in
place, or append. -/
def upsertOne (v : IndexedVector) : Store → Store
  | [] => [v]
  | w :: ws => if w.id = v.id then v :: ws else w :: upsertOne v ws

/-- vector_db_service.py upsert_vectors: bulk upsert. -/
def upsert_vectors (vs : List IndexedVector) (st : Store) : Store :=
  vs.foldl (fun s v => upsertOne v s) st

/-- Exact-match key/value conjunction semantics of a metadata filter. -/
def matchesFilter (filters : Dict) (md : Dict) : Bool :=
  filters.all (fun kv => List.lookup kv.1 md == some kv.2)

/-- vector_db_service.py delete_by_filter: remove every entry whose
metadata matches the filter. -/
def delete_by_filter (filters : Dict) (st : Store) : Store :=
  st.filter (fun e => ! matchesFilter filters e.metadata)

/-! Indexer: services/content_indexer.py. -/

/-- The result dict of ContentIndexer.index_content_item (the reindexed key
is added by reindex_content and absent, modelled false, elsewhere). -/
structure IndexReport where
  content_id : String
  chunks_created : Nat
  embeddings_generated : Nat
  success : Bool
  message : String
  reindexed : Bool := false
deriving DecidableEq

/-- The pure part of ContentIndexer.index_content_item: chunk the item,
embed the chunk texts as one batch of batch size 10, pair chunk ids and
metadata with the embeddings; every failure is wrapped in a
RAGPipelineError. Returns the report together with the vectors to upsert. -/
def index_item_result (split : SplitOracle)
    (getEmb : List String → Except ApiErr (List Embedding)) (item : ContentItem)
    (chunk_size chunk_overlap : Int) :
    Except ApiErr (IndexReport × List IndexedVector) :=
  match chunk_content_item split item chunk_size chunk_overlap with
  | .error e => .error (RAGPipelineError ("Failed to index content item: " ++ e.message))
  | .ok chunks =>
    if chunks.isEmpty then
      .ok ({ content_id := item.id, chunks_created := 0, embeddings_generated := 0,
             success := false, message := "No chunks created from content" }, [])
    else
      match generate_embeddings_batch getEmb (chunks.map (fun c => c.text)) 10 with
      | .error e => .error (RAGPipelineError ("Failed to index content item: " ++ e.message))
      | .ok embeddings =>
        .ok ({ content_id := item.id
               chunks_created := chunks.length
               embeddings_generated := embeddings.length
               success := true
               message := "Successfully indexed " ++ toString chunks.length ++ " chunks" },
             List.zipWith (fun c emb =>
               { id := c.id, vector := emb, metadata := c.metadata : IndexedVector })
               chunks embeddings)

/-- content_indexer.py ContentIndexer.index_content_item: the pure result
followed by the upsert into the store. -/
def index_content_item (split : SplitOracle)
    (getEmb : List String → Except ApiErr (List Embedding)) (item : ContentItem)
    (chunk_size chunk_overlap : Int) (st : Store) :
    Except ApiErr (IndexReport × Store) :=
  (index_item_result split getEmb item chunk_size chunk_overlap).map
    (fun rv => (rv.1, upsert_vectors rv.2 st))

/-- A splitter oracle that yields no chunks, as an empty body does. -/
def emptySplitter : SplitOracle := fun _ _ _ => []

/-- A provider oracle returning one fixed vector per input text, used to
instantiate witnesses. -/
def constEmbedder : List String → Except ApiErr (List Embedding) :=
  fun b => .ok (b.map (fun _ => [(1 : ℚ)]))

/-- The result dict of ContentIndexer.index_content_batch. -/
structure BatchReport where
  total_items : Nat
  successful_items : Nat
  failed_items : Nat
  total_chunks : Nat
  total_embeddings : Nat
  failures : List (String × String)
  success : Bool
deriving DecidableEq

/-- The loop state of the batch loop: the per-item reports, the running
totals, the recorded failures and the store. -/
structure BatchAcc where
  results : List IndexReport
  total_chunks : Nat
  total_embeddings : Nat
  failures : List (String × String)
  store : Store
deriving DecidableEq

/-- One iteration of the batch loop of
ContentIndexer.index_content_batch: the per-item try block records a failed
item as (content_id, error message) and continues; a success appends the
report and accumulates the totals. -/
def batchStep (split : SplitOracle)
    (getEmb : List String → Except ApiErr (List Embedding))
    (chunk_size chunk_overlap : Int) (acc : BatchAcc) (item : ContentItem) :
    BatchAcc :=
  match index_content_item split getEmb item chunk_size chunk_overlap acc.store with
  | .ok (r, st2) =>
    { acc with
      results := acc.results ++ [r]
      total_chunks := acc.total_chunks + r.chunks_created
      total_embeddings := acc.total_embeddings + r.embeddings_generated
      store := st2 }
  | .error e =>
    { acc with failures := acc.failures ++ [(item.id, e.message)] }

/-- content_indexer.py ContentIndexer.index_content_batch: fold the batch
loop over the items and package the aggregate report; the loop body catches
every per-item failure, so the batch itself always returns ok. -/
def index_content_batch (split : SplitOracle)
    (getEmb : List String → Except ApiErr (List Embedding))
    (items : List ContentItem) (chunk_size chunk_overlap : Int) (st : Store) :
    Except ApiErr (BatchReport × Store) :=
  let acc := items.foldl (batchStep split getEmb chunk_size chunk_overlap)
    { results := [], total_chunks := 0, total_embeddings := 0, failures := [], store := st }
  .ok ({ total_items := items.length
         successful_items := acc.results.length
         failed_items := acc.failures.length
         total_chunks := acc.total_chunks
         total_embeddings := acc.total_embeddings
         failures := acc.failures
         success := acc.failures.isEmpty }, acc.store)

/-- content_indexer.py ContentIndexer.reindex_content: delete every vector
whose metadata content_id equals the given content_id, then index the
updated item; failures are wrapped in a RAGPipelineError, and the report is
tagged reindexed. -/
def reindex_content (split : SplitOracle)
    (getEmb : List String → Except ApiErr (List Embedding))
    (content_id : String) (item : ContentItem) (chunk_size chunk_overlap : Int)
    (st : Store) : Except ApiErr (IndexReport × Store) :=
  match index_content_item split getEmb item chunk_size chunk_overlap
      (delete_by_filter [("content_id", .str content_id)] st) with
  | .error e => .error (RAGPipelineError ("Failed to reindex content: " ++ e.message))
  | .ok (r, st2) => .ok ({ r with reindexed := true }, st2)

/-- A splitter oracle yielding two chunks, used in the C9 witness. -/
def twoChunkSplitter : SplitOracle := fun _ _ s => [s, s]

/-- The content item of the C9 witness: one extension metadata field. -/
def chunkWitnessItem : ContentItem :=
  { id := "w1", type := .ncert, subject := .physics, content_text := "hello",
    metadata := [("source", .str "web")] }

/-- The chunk list chunk_content_item produces for the C9 witness. -/
def chunkWitnessOut : List ChunkData :=
  [{ id := "w1_chunk_0", text := "hello",
     metadata := [("chunk_id", .str "w1_chunk_0"), ("content_id", .str "w1"),
       ("text", .str "hello"), ("chunk_index", .nat 0), ("total_chunks", .nat 2),
       ("subject", .str "physics"), ("type", .str "ncert"), ("chapter", .str ""),
       ("topic_id", .str ""), ("difficulty", .str ""), ("content_source", .str "web")] },
   { id := "w1_chunk_1", text := "hello",
     metadata := [("chunk_id", .str "w1_chunk_1"), ("content_id", .str "w1"),
       ("text", .str "hello"), ("chunk_index", .nat 1), ("total_chunks", .nat 2),
       ("subject", .str "physics"), ("type", .str "ncert"), ("chapter", .str ""),
       ("topic_id", .str ""), ("difficulty", .str ""), ("content_source", .str "web")] }]

/-! The theorems settling the claims, with their supporting lemmas and witnesses. -/

/-- C1: for a RAG query whose retrieval step returns an empty result set,
rag_query returns a successful structured response with confidence 0, empty
contexts and sources, metadata reason no_results, and the generative
capability is never invoked (invocation count 0). -/
theorem rag_query_no_results_terminal (q : RAGQuery) (gen : String → String) :
    rag_query q [] gen =
      ({ query := q.query
         generated_text := "I couldn't find relevant information in the available content. Please try rephrasing your question or ask about a different topic."
         contexts := []
         confidence := 0
         sources := []
         metadata := [("reason", .str "no_results")] }, 0) := rfl

/-- C2: for a non-empty retrieval result set, the confidence of the response
is the arithmetic mean of the similarity scores; when that mean is strictly
below the threshold, the response is the low-confidence terminal response
with empty contexts and sources, metadata reason low_confidence with the
threshold echoed, and the generative capability is never invoked. -/
theorem rag_query_confidence_mean_low_confidence (q : RAGQuery)
    (search_results : List SimilaritySearchResult) (gen : String → String)
    (hne : search_results ≠ []) :
    (rag_query q search_results gen).1.confidence =
      (search_results.map (fun r => r.similarity_score)).sum / (search_results.length : ℚ) ∧
    ((search_results.map (fun r => r.similarity_score)).sum / (search_results.length : ℚ)
        < q.confidence_threshold →
      rag_query q search_results gen =
        ({ query := q.query
           generated_text := "I found some related content, but I'm not confident enough (confidence: "
             ++ confidencePercent
               ((search_results.map (fun r => r.similarity_score)).sum / (search_results.length : ℚ))
             ++ ") to provide an accurate answer. Could you please rephrase your question or provide more context?"
           contexts := []
           confidence :=
             (search_results.map (fun r => r.similarity_score)).sum / (search_results.length : ℚ)
           sources := []
           metadata := [("reason", .str "low_confidence"),
                        ("threshold", .rat q.confidence_threshold)] }, 0)) := by
  have hre : search_results.isEmpty = false := by
    cases search_results with
    | nil => exact absurd rfl hne
    | cons a l => rfl
  constructor
  · by_cases hlow :
      (search_results.map (fun r => r.similarity_score)).sum / (search_results.length : ℚ)
        < q.confidence_threshold
    · simp [rag_query, hre, hlow]
    · simp [rag_query, hre, hlow]
  · intro hlow
    simp [rag_query, hre, hlow]

/-- C2 witness: one result with score one half against threshold seven
tenths takes the low-confidence branch with confidence one half. -/
theorem rag_query_confidence_mean_low_confidence_witness :
    (rag_query { query := "q" }
        [{ content_id := "c", chunk_id := "c_chunk_0", similarity_score := 1 / 2,
           text := "t" }] (fun _ => "answer")).1.confidence = 1 / 2 ∧
    (rag_query { query := "q" }
        [{ content_id := "c", chunk_id := "c_chunk_0", similarity_score := 1 / 2,
           text := "t" }] (fun _ => "answer")).1.metadata =
      [("reason", .str "low_confidence"), ("threshold", .rat (7 / 10))] ∧
    (rag_query { query := "q" }
        [{ content_id := "c", chunk_id := "c_chunk_0", similarity_score := 1 / 2,
           text := "t" }] (fun _ => "answer")).2 = 0 := by
  have h := rag_query_confidence_mean_low_confidence { query := "q" }
    [{ content_id := "c", chunk_id := "c_chunk_0", similarity_score := 1 / 2, text := "t" }]
    (fun _ => "answer") (by simp)
  have hlow := h.2 (by norm_num)
  refine ⟨?_, ?_, ?_⟩
  · rw [hlow]; norm_num
  · rw [hlow]
  · rw [hlow]

/-- C10: on the generation branch (non-empty results, mean similarity at or
above the threshold), every context in the response carries the subject of
the query, not the subject stored in the chunk metadata; and the branch is
reached with one context per retrieved result. -/
theorem rag_query_context_subject_from_query (q : RAGQuery)
    (search_results : List SimilaritySearchResult) (gen : String → String)
    (hne : search_results ≠ [])
    (hconf : ¬ ((search_results.map (fun r => r.similarity_score)).sum
        / (search_results.length : ℚ) < q.confidence_threshold)) :
    (rag_query q search_results gen).1.contexts.length = search_results.length ∧
    ∀ c ∈ (rag_query q search_results gen).1.contexts, c.subject = q.subject := by
  have hre : search_results.isEmpty = false := by
    cases search_results with
    | nil => exact absurd rfl hne
    | cons a l => rfl
  constructor
  · simp [rag_query, hre, hconf]
  · intro c hc
    have hctx : (rag_query q search_results gen).1.contexts =
        search_results.map (fun r =>
          { chunk_id := r.chunk_id
            content_id := r.content_id
            text := r.text
            similarity_score := r.similarity_score
            metadata := r.metadata
            source_type := dictGetStr r.metadata "type" "unknown"
            subject := q.subject : RAGContext }) := by
      simp [rag_query, hre, hconf]
    rw [hctx] at hc
    obtain ⟨r, _, rfl⟩ := List.mem_map.mp hc
    rfl

/-- C10 witness: a result whose metadata stores subject chemistry, queried
with subject physics above threshold, yields a context with subject
physics. -/
theorem rag_query_context_subject_from_query_witness :
    (rag_query { query := "q", subject := some .physics }
        [{ content_id := "c", chunk_id := "c_chunk_0", similarity_score := 9 / 10,
           text := "t", metadata := [("subject", .str "chemistry")] }]
        (fun _ => "answer")).1.contexts.length = 1 ∧
    ∀ c ∈ (rag_query { query := "q", subject := some .physics }
        [{ content_id := "c", chunk_id := "c_chunk_0", similarity_score := 9 / 10,
           text := "t", metadata := [("subject", .str "chemistry")] }]
        (fun _ => "answer")).1.contexts, c.subject = some .physics :=
  rag_query_context_subject_from_query { query := "q", subject := some .physics }
    [{ content_id := "c", chunk_id := "c_chunk_0", similarity_score := 9 / 10,
       text := "t", metadata := [("subject", .str "chemistry")] }]
    (fun _ => "answer") (by simp) (by norm_num)

/-- C5 counterexample: with chunk_overlap 200 greater than chunk_size 100
the chunker fails, but the error it fails with carries the code
CHUNKING_ERROR of exceptions.py ChunkingError, not a configuration error
(no ConfigurationError class exists in the code). -/
theorem chunk_text_error_is_not_configuration_error :
    chunk_text wholeTextSplitter "sample text" 100 200 =
      .error { code := "CHUNKING_ERROR"
               message := "Failed to chunk text: Got a larger chunk overlap (200) than chunk size (100), should be smaller."
               retryable := false } ∧
    "CHUNKING_ERROR" ≠ "CONFIGURATION_ERROR" :=
  ⟨rfl, by decide⟩

/-- C5 amended: a call to the chunker with chunk_overlap greater than
chunk_size fails with a ChunkingError wrapping the splitter rejection, and
every failure of the chunker carries the ChunkingError code (its only
failure mode). -/
theorem chunk_text_malformed_args_chunking_error (split : SplitOracle)
    (text : String) (chunk_size chunk_overlap : Int)
    (h : chunk_size < chunk_overlap) :
    chunk_text split text chunk_size chunk_overlap =
      .error (ChunkingError ("Failed to chunk text: "
        ++ ("Got a larger chunk overlap (" ++ toString chunk_overlap
          ++ ") than chunk size (" ++ toString chunk_size
          ++ "), should be smaller."))) ∧
    ∀ (t : String) (cs co : Int) (e : ApiErr),
      chunk_text split t cs co = .error e → e.code = "CHUNKING_ERROR" := by
  constructor
  · have hcond : chunk_size ≠ 1200 ∨ chunk_overlap ≠ 200 := by
      by_cases hcs : chunk_size = 1200
      · right; omega
      · left; exact hcs
    simp only [chunk_text, if_pos hcond, mkTextSplitter, if_pos h]
  · intro t cs co e he
    unfold chunk_text at he
    split at he
    · unfold mkTextSplitter at he
      split at he
      · injection he with h1
        rw [← h1]
        rfl
      · exact Except.noConfusion he
    · exact Except.noConfusion he

/-- C5 amended witness: chunk_size 50 with chunk_overlap 60 fails with the
concrete ChunkingError. -/
theorem chunk_text_malformed_args_chunking_error_witness :
    chunk_text wholeTextSplitter "abc" 50 60 =
      .error (ChunkingError "Failed to chunk text: Got a larger chunk overlap (60) than chunk size (50), should be smaller.") :=
  (chunk_text_malformed_args_chunking_error wholeTextSplitter "abc" 50 60
    (by norm_num)).1

theorem chunksOfAux_flatten {α : Type} (bs : Nat) (hbs : 0 < bs) :
    ∀ (fuel : Nat) (l : List α), l.length ≤ fuel →
      (chunksOfAux bs fuel l).flatten = l := by
  intro fuel
  induction fuel with
  | zero =>
    intro l hl
    cases l with
    | nil => rfl
    | cons x xs => simp at hl
  | succ n ih =>
    intro l hl
    cases l with
    | nil => rfl
    | cons x xs =>
      have hdrop : ((x :: xs).drop bs).length ≤ n := by
        rw [List.length_drop]
        simp only [List.length_cons] at hl ⊢
        omega
      simp only [chunksOfAux, List.flatten_cons]
      rw [ih _ hdrop, List.take_append_drop]

theorem chunksOf_flatten {α : Type} (bs : Nat) (hbs : 0 < bs) (l : List α) :
    (chunksOf bs l).flatten = l :=
  chunksOfAux_flatten bs hbs l.length l le_rfl

theorem chunksOfAux_length_le {α : Type} (bs : Nat) :
    ∀ (fuel : Nat) (l : List α) (c : List α),
      c ∈ chunksOfAux bs fuel l → c.length ≤ bs := by
  intro fuel
  induction fuel with
  | zero => intro l c hc; simp [chunksOfAux] at hc
  | succ n ih =>
    intro l c hc
    cases l with
    | nil => simp [chunksOfAux] at hc
    | cons x xs =>
      simp only [chunksOfAux, List.mem_cons] at hc
      rcases hc with hc | hc
      · rw [hc, List.length_take]
        exact min_le_left _ _
      · exact ih _ _ hc

theorem mapM_ok_map {α β : Type} (g : α → β) (l : List α) :
    l.mapM (fun x => (Except.ok (g x) : Except ApiErr β)) = .ok (l.map g) := by
  induction l with
  | nil => rfl
  | cons x xs ih => rw [List.mapM_cons, ih]; rfl

/-- C6: for a provider that returns one vector per input text of a group
(oracle b.map g), generate_embeddings_batch with a positive batch_size
returns exactly one vector per input in input order; the groups submitted
are consecutive, of length at most batch_size, and concatenate back to the
input list. -/
theorem generate_embeddings_batch_order (g : String → Embedding)
    (texts : List String) (batch_size : Nat) (h : 0 < batch_size) :
    generate_embeddings_batch (fun b => .ok (b.map g)) texts batch_size =
      .ok (texts.map g) ∧
    (chunksOf batch_size texts).flatten = texts ∧
    ∀ b ∈ chunksOf batch_size texts, b.length ≤ batch_size := by
  refine ⟨?_, chunksOf_flatten batch_size h texts,
    fun b hb => chunksOfAux_length_le batch_size texts.length texts b hb⟩
  rw [generate_embeddings_batch, if_neg (Nat.pos_iff_ne_zero.mp h)]
  have hmm : (chunksOf batch_size texts).mapM
      (fun b => (Except.ok (b.map g) : Except ApiErr (List Embedding))) =
      .ok ((chunksOf batch_size texts).map (fun b => b.map g)) :=
    mapM_ok_map _ _
  rw [hmm]
  show Except.ok (((chunksOf batch_size texts).map (fun b => b.map g)).flatten) = _
  have hjoin : ((chunksOf batch_size texts).map (fun b => b.map g)).flatten =
      ((chunksOf batch_size texts).flatten).map g := (List.map_flatten g _).symm
  rw [hjoin, chunksOf_flatten batch_size h texts]

/-- C6 witness: five texts in batches of two give five vectors in input
order. -/
theorem generate_embeddings_batch_order_witness :
    generate_embeddings_batch
        (fun b => .ok (b.map (fun s => [((s.length : ℚ))])))
        ["a", "bb", "ccc", "dddd", "eeeee"] 2 =
      .ok [[(1 : ℚ)], [2], [3], [4], [5]] := by
  have h := (generate_embeddings_batch_order (fun s => [((s.length : ℚ))])
    ["a", "bb", "ccc", "dddd", "eeeee"] 2 (by norm_num)).1
  rw [h]
  rfl

theorem normSq_nonneg (v : List ℚ) : 0 ≤ normSq v := by
  apply List.sum_nonneg
  intro x hx
  obtain ⟨y, _, rfl⟩ := List.mem_map.mp hx
  exact mul_self_nonneg y

theorem normL2_eq_zero_iff (v : List ℚ) : normL2 v = 0 ↔ normSq v = 0 := by
  rw [normL2, Real.sqrt_eq_zero (by exact_mod_cast normSq_nonneg v)]
  exact_mod_cast Iff.rfl

/-- C7: cosine_similarity is total with the guard deciding everything: a
zero-norm argument on either side yields exactly 0, and otherwise the result
is the dot product over the product of the norms, whose denominator is then
nonzero (the division-by-zero branch is unreachable). -/
theorem cosine_similarity_total_guard (a b : List ℚ) :
    (normSq a = 0 ∨ normSq b = 0 → cosine_similarity a b = 0) ∧
    (normSq a ≠ 0 → normSq b ≠ 0 →
      normL2 a * normL2 b ≠ 0 ∧
      cosine_similarity a b = ((dotList a b : ℚ) : ℝ) / (normL2 a * normL2 b)) := by
  constructor
  · intro hz
    have hcond : normL2 a = 0 ∨ normL2 b = 0 := by
      rcases hz with hz | hz
      · exact Or.inl ((normL2_eq_zero_iff a).mpr hz)
      · exact Or.inr ((normL2_eq_zero_iff b).mpr hz)
    rw [cosine_similarity, if_pos hcond]
  · intro ha hb
    have hcond : ¬ (normL2 a = 0 ∨ normL2 b = 0) := by
      rintro (hz | hz)
      · exact ha ((normL2_eq_zero_iff a).mp hz)
      · exact hb ((normL2_eq_zero_iff b).mp hz)
    refine ⟨mul_ne_zero ?_ ?_, by rw [cosine_similarity, if_neg hcond]⟩
    · exact fun hz => ha ((normL2_eq_zero_iff a).mp hz)
    · exact fun hz => hb ((normL2_eq_zero_iff b).mp hz)

/-- C8: when chunking an item yields zero chunks, index_content_item
returns success false with zero counts and the explanatory message instead
of failing; the store is untouched and the result holds for every embedding
oracle, so no embedding or upsert is attempted on this path. -/
theorem index_content_item_zero_chunks (split : SplitOracle)
    (getEmb : List String → Except ApiErr (List Embedding)) (item : ContentItem)
    (chunk_size chunk_overlap : Int) (st : Store)
    (h : chunk_content_item split item chunk_size chunk_overlap = .ok []) :
    index_content_item split getEmb item chunk_size chunk_overlap st =
      .ok ({ content_id := item.id, chunks_created := 0, embeddings_generated := 0,
             success := false, message := "No chunks created from content" }, st) := by
  unfold index_content_item index_item_result
  rw [h]
  rfl

/-- C8 witness: an item whose body yields no chunks is reported success
false with zero counts, and the store stays empty. -/
theorem index_content_item_zero_chunks_witness :
    index_content_item emptySplitter constEmbedder
        { id := "c1", type := .ncert, subject := .physics, content_text := "" }
        1200 200 [] =
      .ok ({ content_id := "c1", chunks_created := 0, embeddings_generated := 0,
             success := false, message := "No chunks created from content" }, []) :=
  index_content_item_zero_chunks emptySplitter constEmbedder
    { id := "c1", type := .ncert, subject := .physics, content_text := "" }
    1200 200 [] rfl

theorem batch_fold_spec (split : SplitOracle)
    (getEmb : List String → Except ApiErr (List Embedding))
    (chunk_size chunk_overlap : Int) (items : List ContentItem) (acc : BatchAcc) :
    items.foldl (batchStep split getEmb chunk_size chunk_overlap) acc =
      { results := acc.results ++ items.filterMap (fun it =>
          (index_item_result split getEmb it chunk_size chunk_overlap).toOption.map
            (fun rv => rv.1))
        total_chunks := acc.total_chunks + ((items.filterMap (fun it =>
          (index_item_result split getEmb it chunk_size chunk_overlap).toOption.map
            (fun rv => rv.1))).map (fun r => r.chunks_created)).sum
        total_embeddings := acc.total_embeddings + ((items.filterMap (fun it =>
          (index_item_result split getEmb it chunk_size chunk_overlap).toOption.map
            (fun rv => rv.1))).map (fun r => r.embeddings_generated)).sum
        failures := acc.failures ++ items.filterMap (fun it =>
          match index_item_result split getEmb it chunk_size chunk_overlap with
          | .error e => some (it.id, e.message)
          | .ok _ => none)
        store := items.foldl (fun s it =>
          match index_item_result split getEmb it chunk_size chunk_overlap with
          | .ok rv => upsert_vectors rv.2 s
          | .error _ => s) acc.store } := by
  induction items generalizing acc with
  | nil => simp
  | cons it its ih =>
    rw [List.foldl_cons, ih]
    cases h : index_item_result split getEmb it chunk_size chunk_overlap with
    | ok rv =>
      simp [batchStep, index_content_item, h, Except.map, Except.toOption,
        List.filterMap_cons, Nat.add_assoc, List.append_assoc]
    | error e =>
      simp [batchStep, index_content_item, h, Except.map, Except.toOption,
        List.filterMap_cons, List.append_assoc]

/-- C4: index_content_batch always returns a report (one item failing never
aborts the batch): the failures list records exactly the failing items with
their content ids and messages in order, successful_items counts the items
indexed without error, failed_items the items that raised, the chunk and
embedding totals aggregate over the successful items only, and the final
store is the fold of the successful upserts over all items. -/
theorem index_content_batch_partial_failure (split : SplitOracle)
    (getEmb : List String → Except ApiErr (List Embedding))
    (items : List ContentItem) (chunk_size chunk_overlap : Int) (st : Store) :
    index_content_batch split getEmb items chunk_size chunk_overlap st =
      .ok ({ total_items := items.length
             successful_items := (items.filterMap (fun it =>
               (index_item_result split getEmb it chunk_size chunk_overlap).toOption.map
                 (fun rv => rv.1))).length
             failed_items := (items.filterMap (fun it =>
               match index_item_result split getEmb it chunk_size chunk_overlap with
               | .error e => some (it.id, e.message)
               | .ok _ => none)).length
             total_chunks := ((items.filterMap (fun it =>
               (index_item_result split getEmb it chunk_size chunk_overlap).toOption.map
                 (fun rv => rv.1))).map (fun r => r.chunks_created)).sum
             total_embeddings := ((items.filterMap (fun it =>
               (index_item_result split getEmb it chunk_size chunk_overlap).toOption.map
                 (fun rv => rv.1))).map (fun r => r.embeddings_generated)).sum
             failures := items.filterMap (fun it =>
               match index_item_result split getEmb it chunk_size chunk_overlap with
               | .error e => some (it.id, e.message)
               | .ok _ => none)
             success := (items.filterMap (fun it =>
               match index_item_result split getEmb it chunk_size chunk_overlap with
               | .error e => some (it.id, e.message)
               | .ok _ => none)).isEmpty },
           items.foldl (fun s it =>
             match index_item_result split getEmb it chunk_size chunk_overlap with
             | .ok rv => upsert_vectors rv.2 s
             | .error _ => s) st) := by
  unfold index_content_batch
  rw [batch_fold_spec]
  simp

theorem mem_upsertOne (v e : IndexedVector) (s : Store) (he : e ∈ upsertOne v s) :
    e = v ∨ e ∈ s := by
  induction s with
  | nil => simpa [upsertOne] using he
  | cons w ws ih =>
    unfold upsertOne at he
    by_cases hw : w.id = v.id
    · rw [if_pos hw] at he
      rcases List.mem_cons.mp he with h | h
      · exact Or.inl h
      · exact Or.inr (List.mem_cons_of_mem w h)
    · rw [if_neg hw] at he
      rcases List.mem_cons.mp he with h | h
      · exact Or.inr (h ▸ List.mem_cons_self w ws)
      · rcases ih h with h2 | h2
        · exact Or.inl h2
        · exact Or.inr (List.mem_cons_of_mem w h2)

theorem mem_upsert_vectors (vs : List IndexedVector) (s : Store)
    (e : IndexedVector) (he : e ∈ upsert_vectors vs s) : e ∈ vs ∨ e ∈ s := by
  induction vs generalizing s with
  | nil => exact Or.inr he
  | cons v vt ih =>
    rcases ih (upsertOne v s) he with h | h
    · exact Or.inl (List.mem_cons_of_mem v h)
    · rcases mem_upsertOne v e s h with h2 | h2
      · exact Or.inl (h2 ▸ List.mem_cons_self v vt)
      · exact Or.inr h2

theorem id_mem_upsertOne (v : IndexedVector) (s : Store) (x : String)
    (hx : x ∈ (upsertOne v s).map (fun e => e.id)) :
    x = v.id ∨ x ∈ s.map (fun e => e.id) := by
  obtain ⟨e, he, rfl⟩ := List.mem_map.mp hx
  rcases mem_upsertOne v e s he with h | h
  · exact Or.inl (by rw [h])
  · exact Or.inr (List.mem_map_of_mem _ h)

theorem nodup_upsertOne (v : IndexedVector) (s : Store)
    (hs : (s.map (fun e => e.id)).Nodup) :
    ((upsertOne v s).map (fun e => e.id)).Nodup := by
  induction s with
  | nil => simp [upsertOne]
  | cons w ws ih =>
    rw [List.map_cons, List.nodup_cons] at hs
    unfold upsertOne
    by_cases hw : w.id = v.id
    · rw [if_pos hw, List.map_cons, List.nodup_cons]
      exact ⟨by rw [← hw]; exact hs.1, hs.2⟩
    · rw [if_neg hw, List.map_cons, List.nodup_cons]
      refine ⟨fun hmem => ?_, ih hs.2⟩
      rcases id_mem_upsertOne v ws w.id hmem with h | h
      · exact hw h
      · exact hs.1 h

theorem nodup_upsert_vectors (vs : List IndexedVector) (s : Store)
    (hs : (s.map (fun e => e.id)).Nodup) :
    ((upsert_vectors vs s).map (fun e => e.id)).Nodup := by
  induction vs generalizing s with
  | nil => exact hs
  | cons v vt ih => exact ih (upsertOne v s) (nodup_upsertOne v s hs)

theorem nodup_delete_by_filter (filters : Dict) (st : Store)
    (hs : (st.map (fun e => e.id)).Nodup) :
    ((delete_by_filter filters st).map (fun e => e.id)).Nodup := by
  have hsub : List.Sublist (delete_by_filter filters st) st := List.filter_sublist st
  exact List.Nodup.sublist (List.Sublist.map (fun e => e.id) hsub) hs

/-- C3: a successful reindex produces exactly the store obtained by first
deleting every vector whose metadata content_id equals the given
content_id and then upserting the vectors of the updated item; hence every
vector with that content_id in the resulting store is one of the freshly
indexed vectors (no stale vector of the prior version survives), and ids
stay duplicate-free across re-index cycles. -/
theorem reindex_content_no_stale_vectors (split : SplitOracle)
    (getEmb : List String → Except ApiErr (List Embedding))
    (content_id : String) (item : ContentItem) (chunk_size chunk_overlap : Int)
    (st : Store) (rep : IndexReport) (st2 : Store)
    (h : reindex_content split getEmb content_id item chunk_size chunk_overlap st =
      .ok (rep, st2)) :
    st2 = upsert_vectors
        (match index_item_result split getEmb item chunk_size chunk_overlap with
         | .ok rv => rv.2
         | .error _ => [])
        (delete_by_filter [("content_id", .str content_id)] st) ∧
    (∀ e ∈ st2, List.lookup "content_id" e.metadata = some (.str content_id) →
      e ∈ (match index_item_result split getEmb item chunk_size chunk_overlap with
           | .ok rv => rv.2
           | .error _ => [])) ∧
    ((st.map (fun e => e.id)).Nodup → (st2.map (fun e => e.id)).Nodup) := by
  cases hr : index_item_result split getEmb item chunk_size chunk_overlap with
  | error e =>
    rw [reindex_content, index_content_item, hr] at h
    exact Except.noConfusion h
  | ok rv =>
    rw [reindex_content, index_content_item, hr] at h
    simp only [Except.map] at h
    injection h with h1
    injection h1 with _ h2
    subst h2
    refine ⟨rfl, fun e he hcid => ?_, fun hnd => ?_⟩
    · show e ∈ rv.2
      rcases mem_upsert_vectors rv.2 _ e he with h2 | h2
      · exact h2
      · exfalso
        have := (List.mem_filter.mp h2).2
        simp only [matchesFilter, List.all_cons, List.all_nil, Bool.and_true,
          Bool.not_eq_eq_eq_not, Bool.not_true] at this
        rw [hcid] at this
        simp at this
    · exact nodup_upsert_vectors rv.2 _
        (nodup_delete_by_filter [("content_id", .str content_id)] st hnd)

/-- C3 witness: a store holding one stale doc1 vector and one unrelated
vector; reindexing doc1 with a one-chunk body deletes the stale vector,
inserts the fresh one, and keeps ids duplicate-free. -/
theorem reindex_content_no_stale_vectors_witness :
    reindex_content wholeTextSplitter constEmbedder "doc1"
        { id := "doc1", type := .ncert, subject := .physics, content_text := "new body" }
        1200 200
        [{ id := "doc1_chunk_0", vector := [(1 : ℚ)],
           metadata := [("content_id", .str "doc1"), ("text", .str "old body")] },
         { id := "x_chunk_0", vector := [(1 : ℚ)],
           metadata := [("content_id", .str "x")] }] =
      .ok ({ content_id := "doc1", chunks_created := 1, embeddings_generated := 1,
             success := true, message := "Successfully indexed 1 chunks",
             reindexed := true },
           [{ id := "x_chunk_0", vector := [(1 : ℚ)], metadata := [("content_id", .str "x")] },
            { id := "doc1_chunk_0", vector := [(1 : ℚ)],
              metadata := [("chunk_id", .str "doc1_chunk_0"), ("content_id", .str "doc1"),
                ("text", .str "new body"), ("chunk_index", .nat 0), ("total_chunks", .nat 1),
                ("subject", .str "physics"), ("type", .str "ncert"), ("chapter", .str ""),
                ("topic_id", .str ""), ("difficulty", .str "")] }]) ∧
    (([{ id := "x_chunk_0", vector := [(1 : ℚ)], metadata := [("content_id", .str "x")] },
       { id := "doc1_chunk_0", vector := [(1 : ℚ)],
         metadata := [("chunk_id", .str "doc1_chunk_0"), ("content_id", .str "doc1"),
           ("text", .str "new body"), ("chunk_index", .nat 0), ("total_chunks", .nat 1),
           ("subject", .str "physics"), ("type", .str "ncert"), ("chapter", .str ""),
           ("topic_id", .str ""), ("difficulty", .str "")] }] : Store).map
      (fun e => e.id)).Nodup := by
  constructor
  · rfl
  · exact (reindex_content_no_stale_vectors wholeTextSplitter constEmbedder "doc1"
      { id := "doc1", type := .ncert, subject := .physics, content_text := "new body" }
      1200 200
      [{ id := "doc1_chunk_0", vector := [(1 : ℚ)],
         metadata := [("content_id", .str "doc1"), ("text", .str "old body")] },
       { id := "x_chunk_0", vector := [(1 : ℚ)],
         metadata := [("content_id", .str "x")] }]
      _ _ rfl).2.2 (by decide)

/-! Dictionary update and key lemmas for the chunk metadata claims. -/

theorem lookup_dinsert_self (k : String) (v : MV) (d : Dict) :
    List.lookup k (dinsert k v d) = some v := by
  induction d with
  | nil => simp [dinsert]
  | cons kv rest ih =>
    obtain ⟨k₀, v₀⟩ := kv
    by_cases hk : k₀ = k
    · simp [dinsert, hk]
    · simp only [dinsert, if_neg hk, List.lookup]
      rw [beq_false_of_ne (fun he => hk he.symm)]
      exact ih

theorem lookup_dinsert_ne (k k1 : String) (v : MV) (d : Dict) (h : k1 ≠ k) :
    List.lookup k1 (dinsert k v d) = List.lookup k1 d := by
  induction d with
  | nil =>
    simp only [dinsert, List.lookup]
    rw [beq_false_of_ne h]
  | cons kv rest ih =>
    obtain ⟨k₀, v₀⟩ := kv
    by_cases hk : k₀ = k
    · simp only [dinsert, if_pos hk, List.lookup]
      rw [beq_false_of_ne h, beq_false_of_ne (fun he => h (he.trans hk))]
    · simp only [dinsert, if_neg hk, List.lookup]
      by_cases hk1 : k1 = k₀
      · rw [beq_iff_eq.mpr hk1]
      · rw [beq_false_of_ne hk1]
        exact ih

theorem content_prefix_ne (k t : String) (h : t.data.take 8 ≠ "content_".data) :
    "content_" ++ k ≠ t := by
  intro he
  apply h
  rw [← he, String.data_append]
  have hlen : ("content_".data).length = 8 := rfl
  rw [← hlen, List.take_left]

theorem content_prefix_eq_content_id (k : String)
    (h : "content_" ++ k = "content_id") : k = "id" := by
  have hd := congrArg String.data h
  rw [String.data_append] at hd
  have h2 : "content_id".data = "content_".data ++ "id".data := rfl
  rw [h2] at hd
  exact String.ext (List.append_cancel_left hd)

theorem content_prefix_inj (a b : String)
    (h : "content_" ++ a = "content_" ++ b) : a = b := by
  have hd := congrArg String.data h
  rw [String.data_append, String.data_append] at hd
  exact String.ext (List.append_cancel_left hd)

theorem lookup_foldl_dinsert_ne (l : List (String × MV)) (base : Dict) (f : String)
    (hf : ∀ kv ∈ l, ("content_" ++ kv.1) ≠ f) :
    List.lookup f (l.foldl (fun d kv => dinsert ("content_" ++ kv.1) kv.2 d) base) =
      List.lookup f base := by
  induction l generalizing base with
  | nil => rfl
  | cons kv t ih =>
    rw [List.foldl_cons,
      ih (dinsert ("content_" ++ kv.1) kv.2 base)
        (fun kv2 h2 => hf kv2 (List.mem_cons_of_mem kv h2)),
      lookup_dinsert_ne ("content_" ++ kv.1) f kv.2 base
        (fun he => hf kv (List.mem_cons_self kv t) he.symm)]

theorem lookup_foldl_dinsert_mem (l : List (String × MV)) (base : Dict)
    (hnd : (l.map (fun kv => kv.1)).Nodup) (k : String) (v : MV)
    (hmem : (k, v) ∈ l) :
    List.lookup ("content_" ++ k)
      (l.foldl (fun d kv => dinsert ("content_" ++ kv.1) kv.2 d) base) = some v := by
  induction l generalizing base with
  | nil => cases hmem
  | cons kv t ih =>
    obtain ⟨k₀, v₀⟩ := kv
    rw [List.map_cons, List.nodup_cons] at hnd
    rw [List.foldl_cons]
    rcases List.mem_cons.mp hmem with h | h
    · injection h with h1 h2
      subst h1
      subst h2
      rw [lookup_foldl_dinsert_ne t _ ("content_" ++ k)
        (fun kv2 h2 he => hnd.1 (by
          rw [← content_prefix_inj kv2.1 k he]
          exact List.mem_map_of_mem (fun kv => kv.1) h2))]
      exact lookup_dinsert_self _ _ _
    · exact ih _ hnd.2 h

/-- C9 counterexample: a content item whose extension metadata has a field
named id; the update stores it under content_id and overwrites the entry
carrying the content item id, so the chunk metadata no longer carries the
content id of the item (id c1, stored value evil). -/
theorem chunk_metadata_extension_id_clobbers_content_id :
    ((chunk_content_item wholeTextSplitter
        { id := "c1", type := .ncert, subject := .physics, content_text := "body",
          metadata := [("id", .str "evil")] } 1200 200).toOption.bind
      (fun cs => cs.head?)).map (fun c => List.lookup "content_id" c.metadata) =
      some (some (.str "evil")) ∧
    ("evil" : String) ≠ "c1" :=
  ⟨rfl, by decide⟩

/-- C9 amended: for an item whose extension metadata has unique field names
and no field named id, every produced chunk has id content_id then _chunk_
then the 0-based sequential index, and its metadata carries content_id,
chunk_index, total_chunks, subject, type, chapter, topic_id and difficulty,
plus every extension field of the item passed through under its content_
prefixed key (an extension field named id would instead be stored as
content_id, overwriting the content id entry). -/
theorem chunk_content_item_ids_and_metadata (split : SplitOracle)
    (item : ContentItem) (chunk_size chunk_overlap : Int) (cs : List ChunkData)
    (i : Nat)
    (hid : ∀ kv ∈ item.metadata, kv.1 ≠ "id")
    (hnd : (item.metadata.map (fun kv => kv.1)).Nodup)
    (hok : chunk_content_item split item chunk_size chunk_overlap = .ok cs)
    (hi : i < cs.length) :
    (cs.get ⟨i, hi⟩).id = item.id ++ "_chunk_" ++ toString i ∧
    List.lookup "content_id" (cs.get ⟨i, hi⟩).metadata = some (.str item.id) ∧
    List.lookup "chunk_index" (cs.get ⟨i, hi⟩).metadata = some (.nat i) ∧
    List.lookup "total_chunks" (cs.get ⟨i, hi⟩).metadata = some (.nat cs.length) ∧
    List.lookup "subject" (cs.get ⟨i, hi⟩).metadata = some (.str item.subject.value) ∧
    List.lookup "type" (cs.get ⟨i, hi⟩).metadata = some (.str item.type.value) ∧
    List.lookup "chapter" (cs.get ⟨i, hi⟩).metadata =
      some (.str (item.chapter.getD "")) ∧
    List.lookup "topic_id" (cs.get ⟨i, hi⟩).metadata =
      some (.str (item.topic_id.getD "")) ∧
    List.lookup "difficulty" (cs.get ⟨i, hi⟩).metadata =
      some (.str (match item.difficulty with | some d => d.value | none => "")) ∧
    ∀ kv ∈ item.metadata,
      List.lookup ("content_" ++ kv.1) (cs.get ⟨i, hi⟩).metadata = some kv.2 := by
  cases hsp : chunk_text split item.content_text chunk_size chunk_overlap with
  | error e =>
    rw [chunk_content_item, hsp] at hok
    exact Except.noConfusion hok
  | ok chunks =>
    rw [chunk_content_item, hsp] at hok
    injection hok with hcs
    subst hcs
    simp only [List.get_eq_getElem, List.length_map, List.enum_length,
      List.getElem_map, List.getElem_enum]
    refine ⟨trivial, ?_, ?_, ?_, ?_, ?_, ?_, ?_, ?_, ?_⟩
    · exact (lookup_foldl_dinsert_ne item.metadata _ "content_id"
        (fun kv hkv he => hid kv hkv (content_prefix_eq_content_id kv.1 he))).trans rfl
    · exact (lookup_foldl_dinsert_ne item.metadata _ "chunk_index"
        (fun kv _ => content_prefix_ne kv.1 "chunk_index" (by decide))).trans rfl
    · exact (lookup_foldl_dinsert_ne item.metadata _ "total_chunks"
        (fun kv _ => content_prefix_ne kv.1 "total_chunks" (by decide))).trans rfl
    · exact (lookup_foldl_dinsert_ne item.metadata _ "subject"
        (fun kv _ => content_prefix_ne kv.1 "subject" (by decide))).trans rfl
    · exact (lookup_foldl_dinsert_ne item.metadata _ "type"
        (fun kv _ => content_prefix_ne kv.1 "type" (by decide))).trans rfl
    · exact (lookup_foldl_dinsert_ne item.metadata _ "chapter"
        (fun kv _ => content_prefix_ne kv.1 "chapter" (by decide))).trans rfl
    · exact (lookup_foldl_dinsert_ne item.metadata _ "topic_id"
        (fun kv _ => content_prefix_ne kv.1 "topic_id" (by decide))).trans rfl
    · exact (lookup_foldl_dinsert_ne item.metadata _ "difficulty"
        (fun kv _ => content_prefix_ne kv.1 "difficulty" (by decide))).trans rfl
    · intro kv hkv
      exact lookup_foldl_dinsert_mem item.metadata _ hnd kv.1 kv.2 hkv

/-- C9 amended witness: the first chunk of the witness item carries the
derived id, the content id and the passed-through extension field. -/
theorem chunk_content_item_ids_and_metadata_witness :
    (chunkWitnessOut.get ⟨0, by decide⟩).id = "w1" ++ "_chunk_" ++ toString 0 ∧
    List.lookup "content_id" (chunkWitnessOut.get ⟨0, by decide⟩).metadata =
      some (.str "w1") ∧
    List.lookup ("content_" ++ "source") (chunkWitnessOut.get ⟨0, by decide⟩).metadata =
      some (.str "web") := by
  have h := chunk_content_item_ids_and_metadata twoChunkSplitter chunkWitnessItem
    1200 200 chunkWitnessOut 0 (by decide) (by decide) rfl (by decide)
  exact ⟨h.1, h.2.1, h.2.2.2.2.2.2.2.2.2 ("source", .str "web") (by decide)⟩

end EduRAG
